import Mathlib

/-
Verification of the EmbedManager modmail plugin
(src/embedmanager/embedmanager.py) against its specification.

The Python module is shallowly embedded: Python dicts become association
lists (`dictGet`, `dictInsert`, `dictErase` mirror `d[k]`, `d[k] = v` and
`del d[k]`), the database state is the optional stored config document,
command handlers become pure functions from their inputs and the database
state to the resulting state together with the list of externally visible
effects they perform, and exceptions become `Except` values.  The
interactive builder view lives in `.core.builder`, which is not part of
the sources; it is modelled from the specification where needed, as
marked on each such definition.
-/

set_option autoImplicit false

namespace EmbedMgr

/-- Lookup in an association-list model of a Python dict: `d.get(k)` / `d[k]`. -/
def dictGet {κ α : Type} [DecidableEq κ] : List (κ × α) → κ → Option α
  | [], _ => none
  | (k, v) :: rest, key => if k = key then some v else dictGet rest key

/-- Assignment `d[k] = v` on the association-list model of a Python dict:
replaces the value in place when the key is present, appends otherwise
(Python dicts preserve insertion order). -/
def dictInsert {κ α : Type} [DecidableEq κ] : List (κ × α) → κ → α → List (κ × α)
  | [], key, v => [(key, v)]
  | (k, w) :: rest, key, v =>
    if k = key then (key, v) :: rest else (k, w) :: dictInsert rest key v

/-- Deletion `del d[k]` on the association-list model (for a present key). -/
def dictErase {κ α : Type} [DecidableEq κ] : List (κ × α) → κ → List (κ × α)
  | [], _ => []
  | (k, w) :: rest, key => if k = key then rest else (k, w) :: dictErase rest key

theorem dictGet_insert_self {κ α : Type} [DecidableEq κ] (d : List (κ × α)) (k : κ) (v : α) :
    dictGet (dictInsert d k v) k = some v := by
  induction d with
  | nil => simp [dictInsert, dictGet]
  | cons p rest ih =>
    obtain ⟨k1, v1⟩ := p
    by_cases h : k1 = k
    · simp [dictInsert, h, dictGet]
    · simp [dictInsert, h, dictGet, ih]

/-- Modelled from the spec: the author substructure of a rich embed
(`discord.Embed` is supplied by the SDK, not by this repository). -/
structure EmbedAuthor where
  name : String
  url : Option String
  icon_url : Option String
deriving DecidableEq

/-- Modelled from the spec: the footer substructure of a rich embed. -/
structure EmbedFooter where
  text : String
  icon_url : Option String
deriving DecidableEq

/-- Modelled from the spec: one named field of a rich embed
(name, value, inline flag). -/
structure EmbedField where
  name : String
  value : String
  inline : Bool
deriving DecidableEq

/-- Modelled from the spec: the embed value object — optional scalar
attributes, optional substructures and an ordered sequence of fields
(`discord.Embed`; `etype` is the `type` attribute, `"rich"` for rich embeds). -/
structure Embed where
  etype : String
  title : Option String
  description : Option String
  url : Option String
  color : Option Nat
  timestamp : Option String
  author : Option EmbedAuthor
  footer : Option EmbedFooter
  image : Option String
  thumbnail : Option String
  fields : List EmbedField
deriving DecidableEq

/-- The empty rich embed, as produced by `discord.Embed()`. -/
def Embed.empty : Embed :=
  { etype := "rich", title := none, description := none, url := none, color := none,
    timestamp := none, author := none, footer := none, image := none,
    thumbnail := none, fields := [] }

/-- Modelled from the spec: the serialized (dictionary) form of an embed, as
produced by `discord.Embed.to_dict` — absent keys are `none`; the field list
is present only when non-empty. -/
structure EmbedDict where
  etype : String
  title : Option String
  description : Option String
  url : Option String
  color : Option Nat
  timestamp : Option String
  author : Option EmbedAuthor
  footer : Option EmbedFooter
  image : Option String
  thumbnail : Option String
  fields : Option (List EmbedField)
deriving DecidableEq

/-- Modelled from the spec: `discord.Embed.to_dict` — render the embed value
object into its dictionary form, omitting unset attributes. -/
def Embed.to_dict (e : Embed) : EmbedDict :=
  { etype := e.etype, title := e.title, description := e.description, url := e.url,
    color := e.color, timestamp := e.timestamp, author := e.author, footer := e.footer,
    image := e.image, thumbnail := e.thumbnail,
    fields := if e.fields.isEmpty then none else some e.fields }

/-- Modelled from the spec: `discord.Embed.from_dict` — decompose a rendered
(serialized) embed back into the embed value object. -/
def Embed.from_dict (d : EmbedDict) : Embed :=
  { etype := d.etype, title := d.title, description := d.description, url := d.url,
    color := d.color, timestamp := d.timestamp, author := d.author, footer := d.footer,
    image := d.image, thumbnail := d.thumbnail,
    fields := d.fields.getD [] }

/-- One value of the `embeds` mapping held in the plugin's config document.
`store_embed` writes the keys `author`, `embed` and `name`; each component is
optional so that a missing dictionary key (Python `KeyError`) is representable. -/
structure StoredEntry where
  author : Option Nat
  embed : Option EmbedDict
  name : Option String
  uses : Option Nat
deriving DecidableEq

/-- The entry written by `store_embed`:
`embeds[name] = {"author": ctx.author.id, "embed": embed, "name": name}` —
note that no `uses` key is written. -/
def mkStoredEntry (authorId : Nat) (name : String) (e : Embed) : StoredEntry :=
  { author := some authorId, embed := some e.to_dict, name := some name, uses := none }

/-- The plugin's config document: `{"embeds": {...}}`. -/
structure Config where
  embeds : List (String × StoredEntry)
deriving DecidableEq

/-- `EmbedManager.default_config = {"embeds": {}}` (value view; the
reference-semantics view used by claim C8 is modelled separately below). -/
def default_config : Config := { embeds := [] }

/-- `db_config`: fetch the config document from the database, falling back to
a copy of `default_config` when the database holds none. -/
def db_config (db : Option Config) : Config := db.getD default_config

/-- Errors surfaced by the command handlers: `commands.BadArgument` carries a
user-facing message; `IndexError` / `KeyError` are uncaught Python exceptions. -/
inductive CmdError where
  | badArgument (msg : String)
  | indexError
  | keyError (key : String)
deriving DecidableEq

def CmdError.isBadArgument : CmdError → Bool
  | .badArgument _ => true
  | _ => false

def notStoredMsg : String := "This is not a stored embed."

def yesEmoji : String := "white heavy check mark"

/-- Externally visible effects performed by the command handlers and by the
builder session. -/
inductive Effect where
  | sendPanel (e : Embed)
  | sendMsg (m : String)
  | sendEmbed (e : Embed)
  | editMsg (msgId : Nat) (e : Embed)
  | addReaction (emoji : String)
  | dbUpdate (cfg : Config)
  | openModal (cat : Nat)
  | renderPanel (draft : Embed)
  | disablePanel
  | ephemeralNotice (m : String)
  | validationErr (m : String)
deriving DecidableEq

def Effect.isDbUpdate : Effect → Bool
  | .dbUpdate _ => true
  | _ => false

def storedUnderMsg (name : String) : String :=
  "Embed stored under the name `" ++ name ++ "`."

def deletedMsg (name : String) : String :=
  "Embed `" ++ name ++ "` is now deleted."

/-- `EmbedManager.store_embed`: serialize the embed, fetch the config, write
`embeds[name] = {"author": ..., "embed": ..., "name": ...}`, persist via
`update_db`, and confirm with a message.  Returns the new config document
together with the effects performed. -/
def store_embed (db : Option Config) (authorId : Nat) (name : String) (e : Embed) :
    Config × List Effect :=
  let cfg := db_config db
  let embeds2 := dictInsert cfg.embeds name (mkStoredEntry authorId name e)
  let cfg2 : Config := { embeds := embeds2 }
  (cfg2, [Effect.dbUpdate cfg2, Effect.sendMsg (storedUnderMsg name)])

/-- `EmbedManager.get_stored_embed`: the `try` block covers `embeds[name]`
and `data["embed"]` (a `KeyError` there is answered with a user message and
`return`); the final `return embed, data["author"], data["uses"]` is OUTSIDE
the `try`, so a missing `author` or `uses` key raises an uncaught `KeyError`. -/
def get_stored_embed (db : Option Config) (name : String) :
    List Effect × Except CmdError (Option (Embed × Nat × Nat)) :=
  let cfg := db_config db
  match dictGet cfg.embeds name with
  | none => ([Effect.sendMsg notStoredMsg], Except.ok none)
  | some data =>
    match data.embed with
    | none => ([Effect.sendMsg notStoredMsg], Except.ok none)
    | some ed =>
      match data.author with
      | none => ([], Except.error (CmdError.keyError "author"))
      | some a =>
        match data.uses with
        | none => ([], Except.error (CmdError.keyError "uses"))
        | some u => ([], Except.ok (some (Embed.from_dict ed, a, u)))

/-- `embed_store_remove` (`embed store remove`): `try: del embeds[name]` — on
`KeyError` report "This is not a stored embed." and perform no database
update; otherwise persist the updated config and confirm.  Returns the
resulting database state and the effects performed. -/
def embed_store_remove (db : Option Config) (name : String) :
    Option Config × List Effect :=
  let cfg := db_config db
  match dictGet cfg.embeds name with
  | none => (db, [Effect.sendMsg notStoredMsg])
  | some _ =>
    let cfg2 : Config := { embeds := dictErase cfg.embeds name }
    (some cfg2, [Effect.dbUpdate cfg2, Effect.sendMsg (deletedMsg name)])

/-- `embed_store_simple` (`embed store simple`): build
`discord.Embed(color=color, title=title, description=description)` with the
bot's main color as fallback, send it, store it via `store_embed`, and react.
No validation of any kind is performed on `title` or `description`. -/
def embed_store_simple (db : Option Config) (authorId : Nat) (mainColor : Nat)
    (name : String) (color : Option Nat) (title : String) (description : String) :
    Config × List Effect :=
  let c := color.getD mainColor
  let e : Embed :=
    { Embed.empty with color := some c, title := some title, description := some description }
  let r := store_embed db authorId name e
  (r.1, Effect.sendEmbed e :: r.2 ++ [Effect.addReaction yesEmoji])

/-- Title of the embed stored under `name`, when present. -/
def storedTitle (cfg : Config) (name : String) : Option String :=
  match dictGet cfg.embeds name with
  | some en =>
    match en.embed with
    | some d => d.title
    | none => none
  | none => none

/-- Description of the embed stored under `name`, when present. -/
def storedDescription (cfg : Config) (name : String) : Option String :=
  match dictGet cfg.embeds name with
  | some en =>
    match en.embed with
    | some d => d.description
    | none => none
  | none => none

/-- A title one character over the 256-character platform limit. -/
def longTitle : String := String.mk (List.replicate 257 (Char.ofNat 97))

/-- The index clamp computed by `get_embed_from_message`:
`index = max(min(index, len(embeds)), 0)`. -/
def clampIndex (index : Int) (n : Nat) : Int := max (min index (n : Int)) 0

/-- `EmbedManager.get_embed_from_message`: raise `BadArgument` when the
message has no embeds, clamp the index, look the embed up (an out-of-range
clamped index is Python `embeds[index]` raising `IndexError`), and raise
`BadArgument` when the selected embed is not of type `rich`. -/
def get_embed_from_message (embeds : List Embed) (index : Int) : Except CmdError Embed :=
  match embeds with
  | [] => Except.error (CmdError.badArgument "That message has no embeds.")
  | _ =>
    let i := clampIndex index embeds.length
    match embeds.get? i.toNat with
    | none => Except.error CmdError.indexError
    | some e =>
      if e.etype = "rich" then Except.ok e
      else Except.error (CmdError.badArgument "That is not a rich embed.")

/-- A sample rich embed. -/
def sampleRich : Embed := { Embed.empty with title := some "sample" }

/-- Modelled from the spec: a message attachment — a filename and raw bytes
(`discord.Attachment` is supplied by the SDK, not by this repository). -/
structure Attachment where
  filename : String
  contents : List Nat
deriving DecidableEq

/-- The file-type check of `get_file_from_message`:
`any(attachment.filename.endswith("." + ft) for ft in file_types)`. -/
def extOk (fileTypes : List String) (a : Attachment) : Bool :=
  fileTypes.any (fun ft => a.filename.endsWith ("." ++ ft))

/-- `EmbedManager.get_file_from_message`: `BadArgument` when the invoking
message has no attachments, when the first attachment's filename ends with
none of the allowed extensions, or when its bytes fail to decode as UTF-8;
otherwise the decoded content of the first attachment is returned.  The
UTF-8 decoder is the external library routine, passed in as a parameter. -/
def get_file_from_message (attachments : List Attachment)
    (decodeUtf8 : List Nat → Option String) (fileTypes : List String) :
    Except CmdError String :=
  match attachments with
  | [] =>
    Except.error (CmdError.badArgument
      "Run the command again, but this time attach an embed file.")
  | a :: _ =>
    if extOk fileTypes a then
      match decodeUtf8 a.contents with
      | some s => Except.ok s
      | none => Except.error (CmdError.badArgument "Failed to read embed file contents.")
    else
      Except.error (CmdError.badArgument "Invalid file type.")

/-- Modelled from the spec: the raw data submitted through one field editor
of the builder (`EmbedBuilderView` lives in `.core.builder`, which is not
among the sources; §4.2 of the spec describes the editors). -/
inductive EditData where
  | titleBody (title : Option String) (description : Option String) (url : Option String)
  | setAuthor (name : Option String) (url : Option String) (icon : Option String)
  | setFooter (text : Option String) (icon : Option String)
  | setImage (url : Option String)
  | setThumbnail (url : Option String)
  | addField (f : EmbedField)
  | removeField (i : Nat)

/-- Modelled from the spec: the raw mutation each editor applies to the draft. -/
def applyEdit : EditData → Embed → Embed
  | .titleBody t d u, e => { e with title := t, description := d, url := u }
  | .setAuthor n u i, e =>
    { e with author :=
        match n with
        | some nm => some { name := nm, url := u, icon_url := i }
        | none => none }
  | .setFooter t i, e =>
    { e with footer :=
        match t with
        | some tx => some { text := tx, icon_url := i }
        | none => none }
  | .setImage u, e => { e with image := u }
  | .setThumbnail u, e => { e with thumbnail := u }
  | .addField f, e => { e with fields := e.fields ++ [f] }
  | .removeField i, e => { e with fields := e.fields.eraseIdx i }

def optLen : Option String → Nat
  | some s => s.length
  | none => 0

def fieldOk (f : EmbedField) : Bool :=
  decide (f.name.length ≤ 256) && decide (f.value.length ≤ 1024)

/-- Total serialized size of the draft (title, description, footer text,
author name and all field names and values), per §3 of the spec. -/
def embedTotalLen (e : Embed) : Nat :=
  optLen e.title + optLen e.description +
    (match e.footer with | some f => f.text.length | none => 0) +
    (match e.author with | some a => a.name.length | none => 0) +
    (e.fields.map (fun f => f.name.length + f.value.length)).sum

/-- Modelled from the spec: the whole-draft size invariant of §3 — title
at most 256, description 4096, footer text 2048, author name 256, at most
25 fields of name at most 256 and value at most 1024, total at most 6000. -/
def validEmbed (e : Embed) : Bool :=
  decide (optLen e.title ≤ 256) && decide (optLen e.description ≤ 4096) &&
  (match e.footer with | some f => decide (f.text.length ≤ 2048) | none => true) &&
  (match e.author with | some a => decide (a.name.length ≤ 256) | none => true) &&
  decide (e.fields.length ≤ 25) && e.fields.all fieldOk &&
  decide (embedTotalLen e ≤ 6000)

/-- Modelled from the spec: a field editor as a pure function — apply the
submitted data and re-validate the WHOLE draft; `none` is a validation
error (draft unchanged). -/
def applyEditor (data : EditData) (draft : Embed) : Option Embed :=
  let e2 := applyEdit data draft
  if validEmbed e2 then some e2 else none

/-- Modelled from the spec: builder session states (§4.1). -/
inductive BState where
  | opened
  | awaiting (cat : Nat)
  | saved
  | cancelled
  | timedOut
deriving DecidableEq

/-- Modelled from the spec: a builder session — one draft, one initiating
user, one deadline (§3, §4.1). -/
structure Session where
  initiator : Nat
  draft : Embed
  state : BState
  deadline : Nat
deriving DecidableEq

/-- The panel times out after 10 minutes (600 seconds), and successful
interactions reset the deadline. -/
def timeoutLength : Nat := 600

/-- A fresh session as created by `embed build` / `embed edit`; for the
editor the seed draft is the decomposed source embed, for the builder the
empty draft. -/
def initSession (userId : Nat) (startTime : Nat) (seed : Embed) : Session :=
  { initiator := userId, draft := seed, state := BState.opened,
    deadline := startTime + timeoutLength }

/-- Modelled from the spec: one user interaction against the panel — an
acting user, an action and an arrival time. -/
inductive UAction where
  | select (cat : Nat)
  | submit (data : EditData)
  | editorCancel
  | save
  | cancelSession

structure UEvent where
  user : Nat
  action : UAction
  time : Nat

def accessNotice : String :=
  "These message components cannot be controlled by you."

/-- Modelled from the spec: the builder session state machine of §4.1.
Interactions from a user other than the initiator are answered with an
ephemeral notice and change nothing (not even the deadline); events against
a terminal session are inert no-ops; otherwise the transitions of §4.1
apply, with a successful interaction resetting the deadline. -/
def stepUser (s : Session) (ev : UEvent) : Session × List Effect :=
  if ev.user = s.initiator then
    match s.state with
    | BState.saved => (s, [])
    | BState.cancelled => (s, [])
    | BState.timedOut => (s, [])
    | BState.opened =>
      match ev.action with
      | UAction.select cat =>
        ({ s with state := BState.awaiting cat, deadline := ev.time + timeoutLength },
         [Effect.openModal cat])
      | UAction.save => ({ s with state := BState.saved }, [Effect.disablePanel])
      | UAction.cancelSession => ({ s with state := BState.cancelled }, [Effect.disablePanel])
      | _ => (s, [])
    | BState.awaiting _ =>
      match ev.action with
      | UAction.submit data =>
        match applyEditor data s.draft with
        | some d =>
          ({ s with draft := d, state := BState.opened, deadline := ev.time + timeoutLength },
           [Effect.renderPanel d])
        | none =>
          ({ s with deadline := ev.time + timeoutLength },
           [Effect.validationErr "Validation failed, the draft is unchanged."])
      | UAction.editorCancel =>
        ({ s with state := BState.opened, deadline := ev.time + timeoutLength },
         [Effect.renderPanel s.draft])
      | UAction.select cat =>
        ({ s with state := BState.awaiting cat, deadline := ev.time + timeoutLength },
         [Effect.openModal cat])
      | UAction.save => ({ s with state := BState.saved }, [Effect.disablePanel])
      | UAction.cancelSession => ({ s with state := BState.cancelled }, [Effect.disablePanel])
  else (s, [Effect.ephemeralNotice accessNotice])

/-- Run a session over a stream of user interactions, accumulating effects. -/
def sessionRun (s : Session) (evs : List UEvent) : Session × List Effect :=
  match evs with
  | [] => (s, [])
  | ev :: rest =>
    let r1 := stepUser s ev
    let r2 := sessionRun r1.1 rest
    (r2.1, r1.2 ++ r2.2)

/-- Modelled from the spec: the timeout transition — any non-terminal state
moves to `TIMED_OUT` with the panel disabled; terminal states are unchanged. -/
def timeoutSession (s : Session) : Session × List Effect :=
  match s.state with
  | BState.saved => (s, [])
  | BState.cancelled => (s, [])
  | BState.timedOut => (s, [])
  | _ => ({ s with state := BState.timedOut }, [Effect.disablePanel])

/-- The whole life of one builder view: the interaction stream, optionally
ended by the view timing out. -/
def runView (userId : Nat) (seed : Embed) (startTime : Nat) (evs : List UEvent)
    (timedOut : Bool) : Session × List Effect :=
  let r := sessionRun (initSession userId startTime seed) evs
  if timedOut then
    let r2 := timeoutSession r.1
    (r2.1, r.2 ++ r2.2)
  else r

/-- `view.embed` after `view.wait()` returns: the final draft exactly when
the session terminated in `SAVED`. -/
def viewEmbedAfter (s : Session) : Option Embed :=
  match s.state with
  | BState.saved => some s.draft
  | _ => none

/-- The tail of `embed_build` (src lines 161-162):
`if view.embed: await ctx.send(embed=view.embed)`. -/
def embed_build_after (viewEmbed : Option Embed) : List Effect :=
  match viewEmbed with
  | some e => [Effect.sendEmbed e]
  | none => []

/-- The tail of `embed_edit` (src lines 300-302): `if view.embed:` edit the
target message with the final embed and react with the check mark. -/
def embed_edit_after (msgId : Nat) (viewEmbed : Option Embed) : List Effect :=
  match viewEmbed with
  | some e => [Effect.editMsg msgId e, Effect.addReaction yesEmoji]
  | none => []

/-- The panel embed sent by `embed_build` / `embed_edit`. -/
def panelEmbed (mainColor : Nat) (title : String) : Embed :=
  { Embed.empty with
    title := some title,
    description := some "Select the category and press the button below respectively to start creating/editing your embed.",
    color := some mainColor,
    footer := some { text := "This panel will time out after 10 minutes.", icon_url := none } }

/-- The full effect trace of the `embed build` command: send the panel, run
the builder session, then post the built embed exactly when one was saved. -/
def embed_build_trace (mainColor : Nat) (authorId : Nat) (startTime : Nat)
    (evs : List UEvent) (timedOut : Bool) : List Effect :=
  let r := runView authorId Embed.empty startTime evs timedOut
  Effect.sendPanel (panelEmbed mainColor "Embed Builder Panel") :: r.2 ++
    embed_build_after (viewEmbedAfter r.1)

/-- The full effect trace of the `embed edit` command: select the source
embed from the message, seed the builder from it, run the session, then edit
the target message exactly when a final embed was saved. -/
def embed_edit_trace (mainColor : Nat) (authorId : Nat) (msgId : Nat)
    (msgEmbeds : List Embed) (index : Int) (startTime : Nat) (evs : List UEvent)
    (timedOut : Bool) : Except CmdError (List Effect) :=
  match get_embed_from_message msgEmbeds index with
  | Except.error e => Except.error e
  | Except.ok srcEmbed =>
    let r := runView authorId srcEmbed startTime evs timedOut
    Except.ok (Effect.sendPanel (panelEmbed mainColor "Embed Editor") :: r.2 ++
      embed_edit_after msgId (viewEmbedAfter r.1))

/-- The effects of an `embed edit` invocation (empty when argument parsing
failed before any effect was performed). -/
def exceptEffects (r : Except CmdError (List Effect)) : List Effect :=
  match r with
  | Except.ok l => l
  | Except.error _ => []

/-- Heap of Python dict objects: addresses of `embeds` dictionaries.  This
models Python reference semantics where it matters (claim C8): the nested
`"embeds"` value of a config dict is a reference to a heap cell. -/
structure Heap where
  cells : List (Nat × List (String × StoredEntry))
  nextAddr : Nat
deriving DecidableEq

def Heap.read (h : Heap) (a : Nat) : List (String × StoredEntry) :=
  (dictGet h.cells a).getD []

def Heap.write (h : Heap) (a : Nat) (d : List (String × StoredEntry)) : Heap :=
  { h with cells := dictInsert h.cells a d }

/-- Address of the nested `embeds` dict of the class attribute
`EmbedManager.default_config = {"embeds": {}}`. -/
def defaultEmbedsAddr : Nat := 0

/-- The heap at class-definition time: the default `embeds` dict is empty. -/
def heapInit : Heap := { cells := [(defaultEmbedsAddr, [])], nextAddr := 1 }

/-- A config object under reference semantics: its `"embeds"` value is a
reference into the heap. -/
structure ConfigRef where
  embedsAddr : Nat
deriving DecidableEq

/-- `db_config` under reference semantics.  When the database holds a
document, `find_one` deserializes it into fresh dict objects.  When it holds
none, `config = {k: v for k, v in self.default_config.items()}` copies only
the TOP-LEVEL dict: the copied `"embeds"` value is the very same dict object
as `default_config["embeds"]`. -/
def db_config_ref (db : Option (List (String × StoredEntry))) (h : Heap) :
    ConfigRef × Heap :=
  match db with
  | some doc =>
    let a := h.nextAddr
    ({ embedsAddr := a }, { cells := dictInsert h.cells a doc, nextAddr := a + 1 })
  | none => ({ embedsAddr := defaultEmbedsAddr }, h)

/-- `store_embed` under reference semantics: fetch the config, mutate its
`embeds` dict in place (`embeds[name] = {...}`), persist a snapshot via
`update_db`.  Returns the heap after the call and the persisted document. -/
def store_embed_ref (db : Option (List (String × StoredEntry))) (h : Heap)
    (authorId : Nat) (name : String) (e : Embed) :
    Heap × List (String × StoredEntry) :=
  let r := db_config_ref db h
  let embeds := r.2.read r.1.embedsAddr
  let embeds2 := dictInsert embeds name (mkStoredEntry authorId name e)
  let h2 := r.2.write r.1.embedsAddr embeds2
  (h2, h2.read r.1.embedsAddr)

/-- The current value of the nested `embeds` dict of the class attribute
`EmbedManager.default_config`. -/
def defaultConfigEmbeds (h : Heap) : List (String × StoredEntry) :=
  h.read defaultEmbedsAddr

theorem stepUser_no_dbUpdate (s : Session) (ev : UEvent) :
    (stepUser s ev).2.filter Effect.isDbUpdate = [] := by
  unfold stepUser
  repeat' split
  all_goals rfl

theorem sessionRun_no_dbUpdate (s : Session) (evs : List UEvent) :
    ((sessionRun s evs).2).filter Effect.isDbUpdate = [] := by
  induction evs generalizing s with
  | nil => rfl
  | cons ev rest ih =>
    simp [sessionRun, List.filter_append, stepUser_no_dbUpdate, ih]

theorem timeoutSession_no_dbUpdate (s : Session) :
    ((timeoutSession s).2).filter Effect.isDbUpdate = [] := by
  unfold timeoutSession
  repeat' split
  all_goals rfl

theorem runView_no_dbUpdate (u : Nat) (seed : Embed) (t : Nat) (evs : List UEvent)
    (tmo : Bool) :
    ((runView u seed t evs tmo).2).filter Effect.isDbUpdate = [] := by
  unfold runView
  split <;>
    simp [List.filter_append, sessionRun_no_dbUpdate, timeoutSession_no_dbUpdate]

theorem build_after_no_dbUpdate (v : Option Embed) :
    (embed_build_after v).filter Effect.isDbUpdate = [] := by
  cases v <;> rfl

theorem edit_after_no_dbUpdate (msgId : Nat) (v : Option Embed) :
    (embed_edit_after msgId v).filter Effect.isDbUpdate = [] := by
  cases v <;> rfl

/-- Claim C1: the claim says that after `store_embed` records an embed under
a name, `get_stored_embed(name)` succeeds and returns the embed with its
author and uses count.  In the code `store_embed` writes no `uses` key and
`get_stored_embed` evaluates `data["uses"]` outside its `try`, so for every
database state, author, name and embed the subsequent lookup raises an
uncaught `KeyError("uses")` instead of succeeding. -/
theorem c1_store_then_get_raises_keyerror (db : Option Config) (authorId : Nat)
    (name : String) (e : Embed) :
    get_stored_embed (some (store_embed db authorId name e).1) name
      = ([], Except.error (CmdError.keyError "uses")) := by
  simp [get_stored_embed, store_embed, db_config, dictGet_insert_self, mkStoredEntry]

def cexName : String := "x"

def cexDescription : String := "d"

set_option maxRecDepth 8192 in
/-- Claim C2, counterexample: a title of 257 characters is accepted by
`embed_store_simple` and stored unchanged — its length exceeds the
256-character platform limit, contradicting the claim that every accepted
title satisfies the limit and violations are rejected at submission. -/
theorem c2_counterexample :
    storedTitle (embed_store_simple none 1 0 cexName none longTitle cexDescription).1 cexName
      = some longTitle ∧
    256 < longTitle.length := by
  constructor
  · simp [embed_store_simple, store_embed, storedTitle, mkStoredEntry,
      Embed.to_dict, dictGet_insert_self]
  · decide

/-- Claim C2, amended: `embed_store_simple` performs no size validation at
all — for every title and description the stored embed carries them exactly
as submitted (never rejected, never truncated); platform size limits are
left to the external platform. -/
theorem c2_amended_no_validation (db : Option Config) (authorId : Nat)
    (mainColor : Nat) (name : String) (color : Option Nat)
    (title : String) (description : String) :
    storedTitle (embed_store_simple db authorId mainColor name color title description).1 name
      = some title ∧
    storedDescription (embed_store_simple db authorId mainColor name color title description).1 name
      = some description := by
  constructor <;>
    simp [embed_store_simple, store_embed, storedTitle, storedDescription,
      mkStoredEntry, Embed.to_dict, dictGet_insert_self]

/-- Claim C3: for every database state and every name not present in the
store, `embed_store_remove` answers with the user-visible message
"This is not a stored embed." and performs no database update (the state is
returned unchanged), and `get_stored_embed` answers with the same message
and returns normally instead of raising. -/
theorem c3_notfound_is_message_and_no_update (db : Option Config) (name : String)
    (h : dictGet (db_config db).embeds name = none) :
    embed_store_remove db name = (db, [Effect.sendMsg notStoredMsg]) ∧
    get_stored_embed db name = ([Effect.sendMsg notStoredMsg], Except.ok none) := by
  constructor <;> simp [embed_store_remove, get_stored_embed, h]

def missingName : String := "missing"

theorem c3_witness :
    embed_store_remove none missingName = (none, [Effect.sendMsg notStoredMsg]) ∧
    get_stored_embed none missingName
      = ([Effect.sendMsg notStoredMsg], Except.ok none) :=
  c3_notfound_is_message_and_no_update none missingName rfl

/-- Claim C4: serializing an embed with `to_dict` and reposting it with
`Embed.from_dict` is an identity round-trip, and seeding a builder session
from an existing embed and immediately saving (without any edit) yields that
embed exactly. -/
theorem c4_roundtrip (e : Embed) (userId : Nat) (startTime : Nat) :
    Embed.from_dict (Embed.to_dict e) = e ∧
    viewEmbedAfter
        (stepUser (initSession userId startTime e)
          { user := userId, action := UAction.save, time := startTime }).1
      = some e := by
  constructor
  · cases e with
    | mk etype title description url color timestamp author footer image thumbnail fields =>
      cases fields <;> simp [Embed.to_dict, Embed.from_dict]
  · simp [stepUser, initSession, viewEmbedAfter]

/-- Claim C5: after a builder session ends, `embed_edit` edits the target
message (and `embed_build` posts the built embed) if and only if the session
terminated in `SAVED`; on cancel or timeout no edit or post happens and no
embed is produced. -/
theorem c5_act_iff_saved (msgId : Nat) (sf : Session) :
    ((∃ m e, Effect.editMsg m e ∈ embed_edit_after msgId (viewEmbedAfter sf)) ↔
      sf.state = BState.saved) ∧
    ((∃ e, Effect.sendEmbed e ∈ embed_build_after (viewEmbedAfter sf)) ↔
      sf.state = BState.saved) ∧
    embed_edit_after msgId (viewEmbedAfter sf)
      = (if sf.state = BState.saved
          then [Effect.editMsg msgId sf.draft, Effect.addReaction yesEmoji] else []) ∧
    embed_build_after (viewEmbedAfter sf)
      = (if sf.state = BState.saved then [Effect.sendEmbed sf.draft] else []) := by
  obtain ⟨ini, draft, st, dl⟩ := sf
  cases st <;> simp [viewEmbedAfter, embed_edit_after, embed_build_after]

/-- Claim C6: no persistent storage is written during a builder session —
for every interaction sequence (and whether or not the view times out), the
full effect traces of `embed build` and `embed edit` contain no database
update. -/
theorem c6_no_db_writes_during_session (mainColor : Nat) (authorId : Nat)
    (msgId : Nat) (msgEmbeds : List Embed) (index : Int) (startTime : Nat)
    (evs : List UEvent) (tmo : Bool) :
    (embed_build_trace mainColor authorId startTime evs tmo).filter Effect.isDbUpdate
      = [] ∧
    (exceptEffects
        (embed_edit_trace mainColor authorId msgId msgEmbeds index startTime evs tmo)).filter
        Effect.isDbUpdate
      = [] := by
  constructor
  · simp [embed_build_trace, List.filter_cons, List.filter_append,
      runView_no_dbUpdate, build_after_no_dbUpdate, Effect.isDbUpdate]
  · unfold embed_edit_trace
    split
    · rfl
    · simp [exceptEffects, List.filter_cons, List.filter_append,
        runView_no_dbUpdate, edit_after_no_dbUpdate, Effect.isDbUpdate]

/-- Claim C7: every interaction whose acting user is not the session's
initiating user is rejected with an ephemeral notice, and the rejection
changes neither the session state nor the draft and does not reset the
deadline (the session is returned exactly as it was). -/
theorem c7_foreign_user_rejected (s : Session) (ev : UEvent)
    (h : ev.user ≠ s.initiator) :
    stepUser s ev = (s, [Effect.ephemeralNotice accessNotice]) := by
  unfold stepUser
  rw [if_neg h]

def wSession : Session :=
  { initiator := 1, draft := Embed.empty, state := BState.opened,
    deadline := timeoutLength }

def wEvent : UEvent := { user := 2, action := UAction.save, time := 0 }

theorem c7_witness :
    stepUser wSession wEvent = (wSession, [Effect.ephemeralNotice accessNotice]) :=
  c7_foreign_user_rejected wSession wEvent (by decide)

/-- Claim C8: the claim says mutation after `db_config`'s copy leaves the
class-level `default_config` unchanged.  In the code the copy is a shallow
dict comprehension sharing the nested `embeds` dict, so a single
`store_embed` starting from an empty database mutates
`default_config["embeds"]` from `{}` to a singleton — the default no longer
equals `{"embeds": {}}`. -/
theorem c8_default_config_polluted (authorId : Nat) (name : String) (e : Embed) :
    defaultConfigEmbeds heapInit = [] ∧
    defaultConfigEmbeds (store_embed_ref none heapInit authorId name e).1
      = [(name, mkStoredEntry authorId name e)] := by
  constructor
  · rfl
  · simp [defaultConfigEmbeds, store_embed_ref, db_config_ref, Heap.read, Heap.write,
      heapInit, defaultEmbedsAddr, dictGet, dictInsert, Option.getD]

/-- Claim C9: the claim says the clamp `max(min(index, len(embeds)), 0)`
always lands in `[0, n-1]` so the lookup never fails.  For a message with
one rich embed and index 1 the clamp yields 1 — outside `[0, 0]` — and the
lookup raises `IndexError` (not `BadArgument`); index 0 on the same message
succeeds. -/
theorem c9_clamp_escapes_range :
    clampIndex 1 1 = 1 ∧
    get_embed_from_message [sampleRich] 1 = Except.error CmdError.indexError ∧
    get_embed_from_message [sampleRich] 0 = Except.ok sampleRich := by
  refine ⟨?_, ?_, ?_⟩ <;> rfl

/-- Claim C10: `get_file_from_message` returns a `BadArgument` error exactly
when the message has no attachments, the first attachment's filename ends
with none of the allowed extensions, or its bytes fail to decode as UTF-8;
otherwise it returns exactly the decoded content of the first attachment
(any further attachments are ignored). -/
theorem c10_file_read_characterization (attachments : List Attachment)
    (decodeUtf8 : List Nat → Option String) (fileTypes : List String) (s : String) :
    (get_file_from_message attachments decodeUtf8 fileTypes = Except.ok s ↔
      ∃ a rest, attachments = a :: rest ∧ extOk fileTypes a = true ∧
        decodeUtf8 a.contents = some s) ∧
    ((∃ m, get_file_from_message attachments decodeUtf8 fileTypes
        = Except.error (CmdError.badArgument m)) ↔
      (attachments = [] ∨ ∃ a rest, attachments = a :: rest ∧
        (extOk fileTypes a = false ∨ decodeUtf8 a.contents = none))) := by
  cases attachments with
  | nil => simp [get_file_from_message]
  | cons a rest =>
    by_cases hx : extOk fileTypes a = true
    · rcases hd : decodeUtf8 a.contents with _ | s2
      · simp [get_file_from_message, hx, hd]
      · simp [get_file_from_message, hx, hd]
    · simp [get_file_from_message, hx, Bool.not_eq_true] at hx ⊢

end EmbedMgr
